import Mathlib

/-!
Shallow embedding of the watermark-driven incremental ETL logic of this
repository, centred on `modules/glue/etl_job_template.py` (the
timestamp-window coordinator the specification takes as representative) and
`glue_scripts/etl_job_delta_upsert.py` (the bookmark/Delta variant).

Modelling conventions.

* A timestamp is a `Nat`, seconds since an arbitrary epoch.  The Python code
  handles timestamps as strings in the format `%Y-%m-%d %H:%M:%S`; on
  well-formed values of that format, lexicographic string comparison agrees
  with chronological comparison, the first ten characters are exactly the
  calendar date, and `startswith(date)` holds iff the calendar dates agree.
  Hence the string operations of the source map to: comparison on `Nat`,
  `dateOf t = t / 86400` for the ten-character date part, and equality of
  `dateOf` for the `startswith` test.
* A `DATE` column (`orders.order_date`) is a `Nat` counting days; the SQL
  comparison `order_date >= '<ten-char date>'` is `dateOf w ≤ order_date`.
* External effects (S3 reads/writes, the JDBC fetch, the Spark
  transform/load, Glue bookmark persistence) are modelled by explicit state
  and success flags supplied in an environment record; the control flow
  around them is translated from the source line by line.
-/

namespace ETL

/-- Seconds in one day; `timedelta(days=30)` is `30 * secondsPerDay` seconds. -/
def secondsPerDay : Nat := 86400

/-- The fixed 30-day lookback used for the default watermark
(`datetime.now() - timedelta(days=30)`, etl_job_template.py line 44). -/
def lookbackSeconds : Nat := 30 * secondsPerDay

/-- Calendar date of a timestamp: the first ten characters of its
`%Y-%m-%d %H:%M:%S` rendering, as a day count. -/
def dateOf (t : Nat) : Nat := t / secondsPerDay

/-- The default watermark `(datetime.now() - timedelta(days=30))`
computed at clock time `now` (etl_job_template.py line 44). -/
def defaultTimestamp (now : Nat) : Nat := now - lookbackSeconds

/-- The table-name branching of `extract_from_rds_incremental`
(etl_job_template.py lines 80-94): `customers`, `orders`, or the default
branch for any other table. -/
inductive TableKind
  | customers
  | orders
  | other
deriving DecidableEq

/-- A source row, restricted to the change-tracking columns the extraction
predicate reads.  `created_at` and `updated_at` are `TIMESTAMP` columns
(seconds); `order_date` is a `DATE` column (days).  Tables that lack a
column never have it consulted by their branch of the predicate. -/
structure Record where
  created_at : Nat
  updated_at : Nat
  order_date : Nat
deriving DecidableEq

/-- `get_last_processed_timestamp` (etl_job_template.py lines 28-45): read
the per-table S3 metadata object; on ANY exception — the object being
absent (`stored = none`) or the read call failing (`readOk = false`) — fall
back to the default `now - 30 days` computed at read time `tRead`.  The
function never propagates an error. -/
def get_last_processed_timestamp (stored : Option Nat) (readOk : Bool)
    (tRead : Nat) : Nat :=
  match stored, readOk with
  | some w, true => w
  | some _, false => defaultTimestamp tRead
  | none, _ => defaultTimestamp tRead

/-- `save_last_processed_timestamp` (etl_job_template.py lines 47-63):
attempt the S3 put; on failure (`writeOk = false`) print a warning and
return normally, leaving the stored value as it was.  The `except` block
swallows the exception — nothing is re-raised. -/
def save_last_processed_timestamp (store : Option Nat) (writeOk : Bool)
    (w : Nat) : Option Nat :=
  if writeOk then some w else store

/-- The first-run test of `extract_from_rds_incremental`
(etl_job_template.py lines 72-74): `last_timestamp.startswith(default_date)`
where `default_date` is the ten-character date of `now - 30 days`.  On
well-formed watermark strings this is equality of calendar dates. -/
def isFirstRun (now w : Nat) : Bool :=
  dateOf w == dateOf (defaultTimestamp now)

/-- The per-table incremental WHERE clause of `extract_from_rds_incremental`
(etl_job_template.py lines 80-94), applied to one row:
`customers`: `created_at > w OR updated_at > w`;
`orders`: `order_date >= w[:10] OR updated_at > w` (note the non-strict
comparison of the `DATE` column against the ten-character date of `w`);
default: `updated_at > w OR created_at > w`. -/
def selectedIncr (tk : TableKind) (w : Nat) (r : Record) : Bool :=
  match tk with
  | .customers => decide (w < r.created_at) || decide (w < r.updated_at)
  | .orders => decide (dateOf w ≤ r.order_date) || decide (w < r.updated_at)
  | .other => decide (w < r.updated_at) || decide (w < r.created_at)

/-- Whether a row is fetched by `extract_from_rds_incremental`
(etl_job_template.py lines 65-94) given extraction clock time `now` and
watermark `w`: on a detected first run the plain table reference
`public.<table>` fetches every row; otherwise the incremental WHERE clause
applies. -/
def selected (tk : TableKind) (now w : Nat) (r : Record) : Bool :=
  if isFirstRun now w then true else selectedIncr tk w r

/-- The row set returned by the extraction step for source-table contents
`source` at clock time `now` with watermark `w`. -/
def extractRecords (tk : TableKind) (source : List Record) (now w : Nat) :
    List Record :=
  source.filter (selected tk now w)

/-- Outcome of one run as the spec's `runIncremental` reports it:
`SUCCEEDED` (load completed, records processed), `FAILED` (an exception
propagated out of `main`), `NO_OP` (zero qualifying records). -/
inductive Status
  | SUCCEEDED
  | FAILED
  | NO_OP
deriving DecidableEq

/-- Environment of one run of `main` (etl_job_template.py lines 195-246):
the source-table contents at extraction time, success flags for each
external call, and the clock readings at the three `datetime.now()` call
sites (line 44 during the watermark read, line 72 during extraction, line
231 when the new watermark value is taken after the load). -/
structure RunEnv where
  source : List Record
  readOk : Bool
  extractOk : Bool
  transformOk : Bool
  loadOk : Bool
  writeOk : Bool
  tRead : Nat
  tExtract : Nat
  tSave : Nat

/-- Result of one run of `main`: the watermark store afterwards, the
reported status, the record count, and which steps were entered. -/
structure RunResult where
  store : Option Nat
  status : Status
  recordsProcessed : Nat
  transformCalled : Bool
  loadCalled : Bool
  saveCalled : Bool
deriving DecidableEq

/-- `main` of etl_job_template.py (lines 195-246): read the watermark
(falling back to the default), extract incrementally, and if the record
count is positive run transform, load, take `datetime.now()` as the new
watermark and save it; with zero records skip transform/load/save.  Any
exception raised by extract, transform or load propagates
(`except ... raise e`), so those paths leave the store untouched and report
`FAILED`.  The save step swallows its own failure. -/
def runIncremental (tk : TableKind) (env : RunEnv) (store0 : Option Nat) :
    RunResult :=
  let w := get_last_processed_timestamp store0 env.readOk env.tRead
  if env.extractOk then
    let recs := extractRecords tk env.source env.tExtract w
    if 0 < recs.length then
      if env.transformOk then
        if env.loadOk then
          ⟨save_last_processed_timestamp store0 env.writeOk env.tSave,
            Status.SUCCEEDED, recs.length, true, true, true⟩
        else ⟨store0, Status.FAILED, 0, true, true, false⟩
      else ⟨store0, Status.FAILED, 0, true, false, false⟩
    else ⟨store0, Status.NO_OP, 0, false, false, false⟩
  else ⟨store0, Status.FAILED, 0, false, false, false⟩

/-- Environment of one run of `main` of
glue_scripts/etl_job_delta_upsert.py (lines 207-252): how many new/updated
rows the bookmark-driven extraction returns, and success flags for the
extraction, the transform, and the Delta MERGE upsert.  (The manifest and
optimize steps catch their own exceptions and only warn, so they cannot
fail the run.) -/
structure DeltaEnv where
  newRecords : Nat
  extractOk : Bool
  transformOk : Bool
  upsertOk : Bool

/-- Result of one delta-upsert run: the persisted Glue job-bookmark cursor
afterwards, whether the run raised, and whether `job.commit()` ran. -/
structure DeltaResult where
  bookmark : Nat
  failed : Bool
  commitCalled : Bool
deriving DecidableEq

/-- `main` of glue_scripts/etl_job_delta_upsert.py (lines 207-252).  The
watermark of this variant is the Glue job bookmark: reading rows through a
`transformation_ctx` advances an in-memory cursor past those rows, and
`job.commit()` persists the in-memory cursor (modelled as
`b0 + newRecords`: the cursor moves exactly when rows were read).  The
script calls `job.commit()` on the zero-record early return (line 225) and
again in the `finally` block (lines 250-252), so the commit runs on EVERY
path, including runs whose transform or upsert raised. -/
def runDeltaUpsert (env : DeltaEnv) (b0 : Nat) : DeltaResult :=
  if env.extractOk then
    let c := b0 + env.newRecords
    if env.newRecords = 0 then ⟨c, false, true⟩
    else if env.transformOk then
      if env.upsertOk then ⟨c, false, true⟩
      else ⟨c, true, true⟩
    else ⟨c, true, true⟩
  else ⟨b0, true, true⟩

/-- C1 (amended): for the timestamp-watermark coordinator of
etl_job_template.py, a run that reports FAILED (extract, transform or load
raised) leaves the persisted watermark exactly as it was and never reaches
the save step. -/
theorem failed_run_preserves_watermark (tk : TableKind) (env : RunEnv)
    (store0 : Option Nat)
    (h : (runIncremental tk env store0).status = Status.FAILED) :
    (runIncremental tk env store0).store = store0 ∧
    (runIncremental tk env store0).saveCalled = false := by
  unfold runIncremental at h ⊢
  by_cases he : env.extractOk = true <;>
    by_cases hr : 0 < (extractRecords tk env.source env.tExtract
      (get_last_processed_timestamp store0 env.readOk env.tRead)).length <;>
    by_cases ht : env.transformOk = true <;>
    by_cases hl : env.loadOk = true <;>
    simp_all

/-- C1 witness: a concrete run whose extraction fails reports FAILED, keeps
the stored watermark 5, and never calls the save step. -/
theorem failed_run_preserves_watermark_witness :
    (runIncremental TableKind.customers
        ⟨[⟨1, 1, 1⟩], true, false, true, true, true, 8640000, 8640000, 8640001⟩
        (some 5)).store = some 5 ∧
    (runIncremental TableKind.customers
        ⟨[⟨1, 1, 1⟩], true, false, true, true, true, 8640000, 8640000, 8640001⟩
        (some 5)).saveCalled = false :=
  failed_run_preserves_watermark TableKind.customers
    ⟨[⟨1, 1, 1⟩], true, false, true, true, true, 8640000, 8640000, 8640001⟩
    (some 5) (by decide)

/-- C1 counterexample: in the delta-upsert coordinator of
glue_scripts/etl_job_delta_upsert.py, a run that reads 5 new rows and fails
at the upsert (load) still runs `job.commit()` in its `finally` block, so
the persisted bookmark — that variant's watermark — advances from 10 to 15
on a FAILED run. -/
theorem delta_failed_run_advances_bookmark :
    (runDeltaUpsert ⟨5, true, true, false⟩ 10).failed = true ∧
    (runDeltaUpsert ⟨5, true, true, false⟩ 10).commitCalled = true ∧
    (runDeltaUpsert ⟨5, true, true, false⟩ 10).bookmark = 15 := by
  decide

/-- C5: a run whose (successful) extraction returns zero qualifying records
terminates as NO_OP without entering transform, load or save, leaving the
watermark store untouched; likewise the delta-upsert coordinator with zero
new rows leaves the persisted bookmark unchanged and does not fail. -/
theorem noop_run_preserves_watermark :
    (∀ (tk : TableKind) (env : RunEnv) (store0 : Option Nat),
      env.extractOk = true →
      extractRecords tk env.source env.tExtract
          (get_last_processed_timestamp store0 env.readOk env.tRead) = [] →
      runIncremental tk env store0 =
        ⟨store0, Status.NO_OP, 0, false, false, false⟩) ∧
    (∀ (env : DeltaEnv) (b0 : Nat), env.extractOk = true →
      env.newRecords = 0 → runDeltaUpsert env b0 = ⟨b0, false, true⟩) := by
  constructor
  · intro tk env store0 he hrecs
    unfold runIncremental
    simp [he, hrecs]
  · intro env b0 he hz
    unfold runDeltaUpsert
    simp [he, hz]

/-- C5 witness: a concrete run over an orders table whose single row is
older than the stored watermark selects nothing and ends NO_OP with the
store untouched; a delta run with zero new rows keeps bookmark 7. -/
theorem noop_run_preserves_watermark_witness :
    runIncremental TableKind.orders
        ⟨[⟨1, 2, 3⟩], true, true, true, true, true, 9072000, 9072000, 9072001⟩
        (some 6091200) =
      ⟨some 6091200, Status.NO_OP, 0, false, false, false⟩ ∧
    runDeltaUpsert ⟨0, true, true, true⟩ 7 = ⟨7, false, true⟩ :=
  ⟨noop_run_preserves_watermark.1 TableKind.orders
      ⟨[⟨1, 2, 3⟩], true, true, true, true, true, 9072000, 9072000, 9072001⟩
      (some 6091200) (by decide) (by decide),
    noop_run_preserves_watermark.2 ⟨0, true, true, true⟩ 7 (by decide)
      (by decide)⟩

/-- C8: a watermark read failure — the S3 call raising, or the stored value
being absent — is recovered locally: the read returns the default
current-time-minus-30-days value instead of raising, and the run proceeds
(it can only report FAILED if a later step fails). -/
theorem watermark_read_failure_recovered (tk : TableKind) (env : RunEnv)
    (store0 : Option Nat) (h : env.readOk = false ∨ store0 = none) :
    get_last_processed_timestamp store0 env.readOk env.tRead =
      defaultTimestamp env.tRead ∧
    (env.extractOk = true → env.transformOk = true → env.loadOk = true →
      (runIncremental tk env store0).status ≠ Status.FAILED) := by
  constructor
  · rcases h with h | h
    · cases store0 <;> simp [get_last_processed_timestamp, h]
    · simp [get_last_processed_timestamp, h]
  · intro he ht hl
    unfold runIncremental
    simp only [he, ht, hl, if_true]
    split <;> simp

/-- C8 witness: with the S3 read failing on a concrete run whose other
steps succeed, the read yields the 30-day default and the run does not
report FAILED. -/
theorem watermark_read_failure_recovered_witness :
    get_last_processed_timestamp (some 5) false 8640000 =
      defaultTimestamp 8640000 ∧
    (runIncremental TableKind.customers
        ⟨[⟨8639999, 8639999, 0⟩], false, true, true, true, true,
          8640000, 8640000, 8640001⟩ (some 5)).status ≠ Status.FAILED := by
  have h := watermark_read_failure_recovered TableKind.customers
    ⟨[⟨8639999, 8639999, 0⟩], false, true, true, true, true,
      8640000, 8640000, 8640001⟩ (some 5) (Or.inl rfl)
  exact ⟨h.1, h.2 rfl rfl rfl⟩

/-- C9: first-run detection is a date-prefix collision test: whenever the
stored watermark's calendar date equals the date exactly 30 days before the
extraction clock time, the extractor treats the run as a first run, every
record is selected, and the whole table is fetched with no predicate,
ignoring the stored watermark value. -/
theorem stale_watermark_date_collision (tk : TableKind) (now w : Nat)
    (src : List Record) (r : Record)
    (h : dateOf w = dateOf (defaultTimestamp now)) :
    selected tk now w r = true ∧ extractRecords tk src now w = src := by
  have hf : isFirstRun now w = true := by
    simp [isFirstRun, h]
  constructor
  · simp [selected, hf]
  · simp [extractRecords, selected, hf]

/-- C9 witness: with the clock at day 100 and a stored watermark at day 70
(00:00:05) — whose date is exactly 30 days earlier — a record far older
than the watermark is selected and the whole table is fetched. -/
theorem stale_watermark_date_collision_witness :
    selected TableKind.customers 8640000 6048005 ⟨0, 0, 0⟩ = true ∧
    extractRecords TableKind.customers [⟨0, 0, 0⟩] 8640000 6048005 =
      [⟨0, 0, 0⟩] :=
  stale_watermark_date_collision TableKind.customers 8640000 6048005
    [⟨0, 0, 0⟩] ⟨0, 0, 0⟩ (by decide)

/-- C2 counterexample: for the orders table with stored watermark day 70
12:00:00 (6091200) and extraction clock at day 105 (so the first-run test
is off), a record whose `updated_at` equals the watermark exactly and whose
`order_date` is day 70 (instant 6048000, before the watermark) has no
timestamp column strictly greater than the watermark, yet it IS selected,
because the orders branch compares `order_date >=` the watermark's
ten-character date non-strictly. -/
theorem orders_nonstrict_date_counterexample :
    isFirstRun 9072000 6091200 = false ∧
    selected TableKind.orders 9072000 6091200 ⟨0, 6091200, 70⟩ = true ∧
    ¬ 6091200 < 70 * secondsPerDay ∧ ¬ 6091200 < 6091200 := by
  decide

/-- C2 (amended): outside the first-run branch, the customers and default
predicates select a record iff some timestamp column is STRICTLY greater
than the watermark, but the orders predicate selects a record iff its
`order_date` is greater than or equal to the watermark's calendar date
(non-strict, date granularity) or its `updated_at` is strictly greater
than the watermark. -/
theorem selection_predicate_shape (now w : Nat) (r : Record)
    (h : isFirstRun now w = false) :
    (selected TableKind.customers now w r = true ↔
      w < r.created_at ∨ w < r.updated_at) ∧
    (selected TableKind.other now w r = true ↔
      w < r.updated_at ∨ w < r.created_at) ∧
    (selected TableKind.orders now w r = true ↔
      dateOf w ≤ r.order_date ∨ w < r.updated_at) := by
  simp [selected, selectedIncr, h]

/-- C2 witness: the predicate shapes instantiated at the day-105 clock,
watermark day 70 12:00:00 and a record one second newer on `created_at`. -/
theorem selection_predicate_shape_witness :
    (selected TableKind.customers 9072000 6091200 ⟨6091201, 0, 0⟩ = true ↔
      6091200 < 6091201 ∨ 6091200 < 0) ∧
    (selected TableKind.other 9072000 6091200 ⟨6091201, 0, 0⟩ = true ↔
      6091200 < 0 ∨ 6091200 < 6091201) ∧
    (selected TableKind.orders 9072000 6091200 ⟨6091201, 0, 0⟩ = true ↔
      dateOf 6091200 ≤ 0 ∨ 6091200 < 0) :=
  selection_predicate_shape 9072000 6091200 ⟨6091201, 0, 0⟩ (by decide)

/-- C3 counterexample: a concrete run whose extract, transform and load all
succeed but whose watermark write fails reports SUCCEEDED, not FAILED —
`save_last_processed_timestamp` swallows the S3 exception with a warning
instead of propagating it. -/
theorem write_failure_not_fatal_counterexample :
    (runIncremental TableKind.customers
        ⟨[⟨200, 200, 0⟩], true, true, true, true, false,
          8640000, 8640000, 8640005⟩ (some 100)).status = Status.SUCCEEDED ∧
    (runIncremental TableKind.customers
        ⟨[⟨200, 200, 0⟩], true, true, true, true, false,
          8640000, 8640000, 8640005⟩ (some 100)).status ≠ Status.FAILED ∧
    (runIncremental TableKind.customers
        ⟨[⟨200, 200, 0⟩], true, true, true, true, false,
          8640000, 8640000, 8640005⟩ (some 100)).store = some 100 := by
  decide

/-- C3 (amended): a watermark write failure is swallowed — when extract,
transform and load succeed, the run never reports FAILED even though the
write failed, and the persisted watermark is simply left unchanged.  (A
read failure is recovered locally, as proved for C8.) -/
theorem write_failure_swallowed (tk : TableKind) (env : RunEnv)
    (store0 : Option Nat) (hw : env.writeOk = false)
    (he : env.extractOk = true) (ht : env.transformOk = true)
    (hl : env.loadOk = true) :
    (runIncremental tk env store0).store = store0 ∧
    (runIncremental tk env store0).status ≠ Status.FAILED := by
  unfold runIncremental
  by_cases hr : 0 < (extractRecords tk env.source env.tExtract
      (get_last_processed_timestamp store0 env.readOk env.tRead)).length <;>
    simp [he, ht, hl, hr, save_last_processed_timestamp, hw]

/-- C3 witness: the swallowed-write behaviour at the concrete run of the
counterexample: store stays at 100 and the status is not FAILED. -/
theorem write_failure_swallowed_witness :
    (runIncremental TableKind.customers
        ⟨[⟨200, 200, 0⟩], true, true, true, true, false,
          8640000, 8640000, 8640006⟩ (some 100)).store = some 100 ∧
    (runIncremental TableKind.customers
        ⟨[⟨200, 200, 0⟩], true, true, true, true, false,
          8640000, 8640000, 8640006⟩ (some 100)).status ≠ Status.FAILED :=
  write_failure_swallowed TableKind.customers
    ⟨[⟨200, 200, 0⟩], true, true, true, true, false,
      8640000, 8640000, 8640006⟩ (some 100) rfl rfl rfl rfl

/-- C4 counterexample: on a first run at clock day 100 the read returns the
day-70 default (6048000), but a record whose every timestamp column is 0 —
far OLDER than that default, so the claim says it must be excluded — is
selected, because the extractor recognises the default by its date and
fetches the whole table with no predicate. -/
theorem first_run_full_scan_counterexample :
    get_last_processed_timestamp none true 8640000 = 6048000 ∧
    ¬ 6048000 < 0 ∧
    selected TableKind.customers 8640000
      (get_last_processed_timestamp none true 8640000) ⟨0, 0, 0⟩ = true := by
  decide

/-- C4 (amended): with no stored watermark the read returns the default
current-time-minus-30-days value, and the extraction (at the same clock
reading) then detects that default by its calendar date and selects EVERY
record — the whole table is fetched, the default does not bound the scan. -/
theorem first_run_default_and_full_scan (tk : TableKind) (rOk : Bool)
    (tNow : Nat) (src : List Record) (r : Record) :
    get_last_processed_timestamp none rOk tNow = tNow - lookbackSeconds ∧
    selected tk tNow (get_last_processed_timestamp none rOk tNow) r = true ∧
    extractRecords tk src tNow
      (get_last_processed_timestamp none rOk tNow) = src := by
  have hd : get_last_processed_timestamp none rOk tNow =
      defaultTimestamp tNow := by
    cases rOk <;> rfl
  have hf : isFirstRun tNow (defaultTimestamp tNow) = true := by
    simp [isFirstRun]
  refine ⟨hd, ?_, ?_⟩
  · rw [hd]
    simp [selected, hf]
  · rw [hd]
    simp [extractRecords, selected, hf]

/-- C6: on a SUCCEEDED run that persists its write, the watermark written
at the end (the clock reading taken after the load) is at least the
watermark read at the start, given that the stored value does not lie in
the future of the read-time clock and the clock is non-decreasing across
the run; hence the watermark never decreases across successful runs. -/
theorem watermark_monotone (tk : TableKind) (env : RunEnv)
    (store0 : Option Nat) (hs : ∀ v, store0 = some v → v ≤ env.tRead)
    (hclock : env.tRead ≤ env.tSave) (hw : env.writeOk = true)
    (hsucc : (runIncremental tk env store0).status = Status.SUCCEEDED) :
    get_last_processed_timestamp store0 env.readOk env.tRead ≤ env.tSave ∧
    (runIncremental tk env store0).store = some env.tSave := by
  constructor
  · have hle : get_last_processed_timestamp store0 env.readOk env.tRead ≤
        env.tRead := by
      cases store0 with
      | none => exact Nat.sub_le _ _
      | some v =>
        cases env.readOk with
        | false => exact Nat.sub_le _ _
        | true => exact hs v rfl
    exact le_trans hle hclock
  · unfold runIncremental at hsucc ⊢
    by_cases he : env.extractOk = true <;>
      by_cases hr : 0 < (extractRecords tk env.source env.tExtract
        (get_last_processed_timestamp store0 env.readOk env.tRead)).length <;>
      by_cases ht : env.transformOk = true <;>
      by_cases hl : env.loadOk = true <;>
      simp_all [save_last_processed_timestamp]

/-- C6 witness: a concrete successful run with stored watermark 100 read at
day 100 and saved at a later instant writes the later instant, which
dominates the value read. -/
theorem watermark_monotone_witness :
    get_last_processed_timestamp (some 100) true 8640000 ≤ 8640005 ∧
    (runIncremental TableKind.customers
        ⟨[⟨200, 200, 0⟩], true, true, true, true, true,
          8640000, 8640000, 8640005⟩ (some 100)).store = some 8640005 :=
  watermark_monotone TableKind.customers
    ⟨[⟨200, 200, 0⟩], true, true, true, true, true,
      8640000, 8640000, 8640005⟩ (some 100)
    (by intro v hv; injection hv with h; subst h; decide)
    (by decide) rfl (by decide)

/-- C7 counterexample: with the same customers table contents and the same
stored watermark 6048000 (day 70 00:00:00), an execution at clock day 100
selects the lone stale record (the watermark's date collides with the
default date, triggering the full-table first-run branch) while an
execution at clock day 101 selects nothing — the two runs disagree. -/
theorem rerun_selection_differs :
    extractRecords TableKind.customers [⟨0, 0, 0⟩] 8640000 6048000 =
      [⟨0, 0, 0⟩] ∧
    extractRecords TableKind.customers [⟨0, 0, 0⟩] 8726400 6048000 = [] := by
  decide

/-- C7 (amended): the selection is a pure function of the table kind, the
watermark and the computed default date, so two executions with the same
table, watermark and source contents select exactly the same record set
PROVIDED their clock readings yield the same default calendar date (for
example, both on the same day); the clock enters only through the first-run
date test. -/
theorem selection_deterministic_same_date (tk : TableKind) (w n1 n2 : Nat)
    (src : List Record)
    (h : dateOf (defaultTimestamp n1) = dateOf (defaultTimestamp n2)) :
    extractRecords tk src n1 w = extractRecords tk src n2 w := by
  unfold extractRecords selected isFirstRun
  simp only [h]

/-- C7 witness: two executions five seconds apart on the same day, same
watermark and same source, select the same record set. -/
theorem selection_deterministic_same_date_witness :
    extractRecords TableKind.orders [⟨1, 2, 3⟩] 8640000 6091200 =
      extractRecords TableKind.orders [⟨1, 2, 3⟩] 8640005 6091200 :=
  selection_deterministic_same_date TableKind.orders 6091200 8640000 8640005
    [⟨1, 2, 3⟩] (by decide)

/-- C10 counterexample: written watermark 6091200 (day 70 12:00:00); an
orders record inserted after the extraction snapshot with
`updated_at = 6091190` and `order_date` day 70 — every timestamp at or
before the written watermark — IS selected by a subsequent (non-first-run)
execution with that watermark, because the orders branch re-selects any row
whose order date is at least the watermark's date. -/
theorem late_record_reselected_counterexample :
    isFirstRun 9072000 6091200 = false ∧
    6091190 ≤ 6091200 ∧ 70 * secondsPerDay ≤ 6091200 ∧
    selected TableKind.orders 9072000 6091200 ⟨0, 6091190, 70⟩ = true := by
  decide

/-- C10 (amended): a SUCCEEDED run that persists its write stores the
post-load clock reading `tSave` as the watermark — not the extraction
time — and for the customers and default predicates (both strict), any
record whose timestamp columns are all at most `tSave` is excluded by every
subsequent non-first-run execution whose watermark is at least `tSave`:
rows whose commit falls in the extraction-to-save window are silently
skipped.  (The orders predicate can still re-select same-date rows, and a
first-run date collision re-selects everything.) -/
theorem late_record_gap (tk : TableKind) (env : RunEnv)
    (store0 : Option Nat)
    (hsucc : (runIncremental tk env store0).status = Status.SUCCEEDED)
    (hw : env.writeOk = true) :
    (runIncremental tk env store0).store = some env.tSave ∧
    (∀ (w2 n2 : Nat) (r : Record), env.tSave ≤ w2 →
      isFirstRun n2 w2 = false → r.created_at ≤ env.tSave →
      r.updated_at ≤ env.tSave →
      selected TableKind.customers n2 w2 r = false ∧
      selected TableKind.other n2 w2 r = false) := by
  constructor
  · unfold runIncremental at hsucc ⊢
    by_cases he : env.extractOk = true <;>
      by_cases hr : 0 < (extractRecords tk env.source env.tExtract
        (get_last_processed_timestamp store0 env.readOk env.tRead)).length <;>
      by_cases ht : env.transformOk = true <;>
      by_cases hl : env.loadOk = true <;>
      simp_all [save_last_processed_timestamp]
  · intro w2 n2 r hw2 hnf hc hu
    constructor <;> simp [selected, selectedIncr, hnf] <;> omega

/-- C10 witness: after the concrete successful run saving watermark
8640005, a record with both timestamps 8640001 (inside the
extraction-to-save window) is excluded by a later same-watermark
non-first-run execution under both strict predicates. -/
theorem late_record_gap_witness :
    (runIncremental TableKind.other
        ⟨[⟨200, 200, 0⟩], true, true, true, true, true,
          8640000, 8640000, 8640005⟩ (some 100)).store = some 8640005 ∧
    (selected TableKind.customers 17280000 8640005 ⟨8640001, 8640001, 0⟩ =
        false ∧
      selected TableKind.other 17280000 8640005 ⟨8640001, 8640001, 0⟩ =
        false) :=
  ⟨(late_record_gap TableKind.other
      ⟨[⟨200, 200, 0⟩], true, true, true, true, true,
        8640000, 8640000, 8640005⟩ (some 100) (by decide) rfl).1,
    (late_record_gap TableKind.other
      ⟨[⟨200, 200, 0⟩], true, true, true, true, true,
        8640000, 8640000, 8640005⟩ (some 100) (by decide) rfl).2
      8640005 17280000 ⟨8640001, 8640001, 0⟩ (by decide) (by decide)
      (by decide) (by decide)⟩

end ETL
